import Mathlib

/-
  Verification development for the routing-policy core of the sipsorcery proxy
  scripts (sipsorcery-servers).

  The embedding translates the IronPython proxy scripts into executable Lean
  functions.  Each script is modelled in its own namespace:

  * `OutboundProxy` — SIPSorcery.AllInOne/proxyscript-outboundproxy.py
  * `AppServer`     — SIPSorcery.SIPAppServer/proxyscript.py
  * `ProxyLocal`    — SIPSorcery.SIPProxy/ExampleProxyScripts/proxyscript-local.py
  * `ProxyExample`  — SIPSorcery.SIPProxy/ExampleProxyScripts/proxyscript.py

  A script execution is modelled as a pure function from a routing context
  (the ambient values the C# host injects: remoteEndPoint, localEndPoint,
  proxyBranch, channelName, publicip, outSocket, topVia, and the resolver /
  dispatcher callbacks) and the incoming message to a list of transport
  actions (the sys.Send / sys.SendInternal / sys.SendExternal /
  sys.SendTransparent / sys.Respond / sys.Log calls the script performs, in
  order).  Paths on which the script dereferences a null value (for example
  PopRoute() on an empty route set) or reads an unbound name are modelled as
  `Except.error`.
-/

namespace SIPS

/-- A SIP endpoint: (protocol, address, port).  `ToString()` produces the
canonical "proto:addr:port" form the scripts compare against their socket
string constants. -/
structure SIPEndPoint where
  protocol : String
  address : String
  port : Nat
deriving DecidableEq

def SIPEndPoint.asString (ep : SIPEndPoint) : String :=
  ep.protocol ++ ":" ++ ep.address ++ ":" ++ toString ep.port

/-- `SocketEndPoint.ToString()`: just "addr:port". -/
def SIPEndPoint.socketString (ep : SIPEndPoint) : String :=
  ep.address ++ ":" ++ toString ep.port

structure SIPURI where
  scheme : String
  host : String
  port : Nat
deriving DecidableEq

def SIPURI.asString (u : SIPURI) : String :=
  u.scheme ++ ":" ++ u.host ++ ":" ++ toString u.port

/-- A Via entry: the sent-by endpoint, the branch parameter, and the rest of
the parameter bag (named parameters such as "rport", "cn", "proxy"). -/
structure SIPViaHeader where
  endpoint : SIPEndPoint
  branch : String
  params : List (String × String)
deriving DecidableEq

/-- The `SIPViaHeader(endpoint, branch)` constructor: a fresh Via carrying
just the endpoint and branch, with an empty extra-parameter bag. -/
def mkSIPViaHeader (ep : SIPEndPoint) (branch : String) : SIPViaHeader :=
  ⟨ep, branch, []⟩

/-- `ViaParameters.Set(k, v)`. -/
def setParam (ps : List (String × String)) (k v : String) : List (String × String) :=
  if ps.any (fun p => p.1 == k) then
    ps.map (fun p => if p.1 == k then (k, v) else p)
  else ps ++ [(k, v)]

/-- `ViaParameters.Remove(k)`. -/
def removeParam (ps : List (String × String)) (k : String) : List (String × String) :=
  ps.filter (fun p => p.1 != k)

/-- `ViaParameters.Get(k)`. -/
def getParam (ps : List (String × String)) (k : String) : Option String :=
  (ps.find? (fun p => p.1 == k)).map (fun p => p.2)

/-- `Vias.PopTopViaHeader()`: remove and return the top Via (`none` when the
stack is empty, where the C# implementation returns null). -/
def popTopViaHeader : List SIPViaHeader → Option SIPViaHeader × List SIPViaHeader
  | [] => (none, [])
  | v :: rest => (some v, rest)

/-- `Vias.PushViaHeader(v)`: prepend a Via entry. -/
def pushViaHeader (v : SIPViaHeader) (vias : List SIPViaHeader) : List SIPViaHeader :=
  v :: vias

/-- The (endpoint, branch) projection of a Via entry. -/
def viaKey (v : SIPViaHeader) : SIPEndPoint × String :=
  (v.endpoint, v.branch)

structure SIPRoute where
  uri : SIPURI
deriving DecidableEq

/-- `SIPRoute.ToSIPEndPoint()`: the transport endpoint named by the route URI
(UDP is the default transport). -/
def SIPRoute.toSIPEndPoint (r : SIPRoute) : SIPEndPoint :=
  ⟨"udp", r.uri.host, r.uri.port⟩

/-- A Contact entry; only `ContactURI.Host` is read or written by the scripts. -/
structure SIPContact where
  host : String
deriving DecidableEq

structure SIPHeader where
  maxForwards : Int
  vias : List SIPViaHeader
  routes : List SIPRoute
  recordRoutes : List String
  contact : List SIPContact
  toTag : Option String
  userAgent : String
  event : Option String
  cseqMethod : String
deriving DecidableEq

structure SIPRequest where
  method : String
  uri : SIPURI
  header : SIPHeader
  receivedRoute : String
  localSIPEndPoint : Option SIPEndPoint
deriving DecidableEq

def SIPRequest.asString (r : SIPRequest) : String :=
  r.method ++ " " ++ r.uri.asString

/-- `req.GetRequestEndPoint()`: the endpoint the request URI names. -/
def SIPRequest.getRequestEndPoint (r : SIPRequest) : SIPEndPoint :=
  ⟨"udp", r.uri.host, r.uri.port⟩

structure SIPResponse where
  statusCode : Nat
  header : SIPHeader
  localSIPEndPoint : Option SIPEndPoint
deriving DecidableEq

def SIPResponse.asString (r : SIPResponse) : String :=
  "SIP/2.0 " ++ toString r.statusCode

/-- The `SIPResponseStatusCodesEnum` members used by the scripts. -/
inductive SIPResponseStatus where
  | DoesNotExistAnywhere
  | BadGateway
deriving DecidableEq

/-- `String.StartsWith`. -/
def strStartsWith (s p : String) : Bool :=
  s.data.take p.data.length == p.data

end SIPS

/-! ## OutboundProxy: SIPSorcery.AllInOne/proxyscript-outboundproxy.py -/

namespace SIPS.OutboundProxy

def m_appServerSocket : String := "udp:10.0.0.100:5061"
def m_registrarSocket : String := "udp:127.0.0.1:5001"
def m_regAgentSocket : String := "udp:127.0.0.1:5002"
def m_proxySocket : String := "udp:127.0.0.1:5060"

/-- Destination argument of `sys.Send`: the script passes either one of the
socket string constants or a `SIPEndPoint` object. -/
inductive Dest where
  | socket (s : String)
  | ep (e : SIPEndPoint)
deriving DecidableEq

inductive Action where
  | send (dst : Dest) (req : SIPRequest) (branch : String) (channelName : String)
  | sendResp (resp : SIPResponse)
  | log (msg : String)
deriving DecidableEq

structure Ctx where
  remoteEndPoint : SIPEndPoint
  localEndPoint : SIPEndPoint
  proxyBranch : String
  channelName : String

/-- The request side of proxyscript-outboundproxy.py. -/
def processRequest (ctx : Ctx) (req0 : SIPRequest) : Except String (List Action) :=
  let req1 : SIPRequest := { req0 with header.maxForwards := req0.header.maxForwards - 1 }
  if req1.method = "REGISTER" then
    if ctx.remoteEndPoint.asString = m_regAgentSocket then
      match req1.header.vias with
      | [] => .error "NullReferenceException: PopTopViaHeader"
      | v :: vs =>
        let req2 : SIPRequest := { req1 with header.vias := vs }
        match req2.header.routes with
        | [] => .error "NullReferenceException: PopRoute"
        | r :: _ =>
          let req3 : SIPRequest := { req2 with header.routes := [] }
          .ok [.send (.ep r.toSIPEndPoint) req3 v.branch ctx.channelName]
    else
      match req1.header.vias with
      | [] => .error "NullReferenceException: TopViaHeader"
      | v :: vs =>
        let req2 : SIPRequest :=
          { req1 with header.vias :=
              { v with params := setParam v.params "proxy" ctx.localEndPoint.asString } :: vs }
        .ok [.send (.socket m_registrarSocket) req2 ctx.proxyBranch ctx.channelName]
  else if req1.method = "INVITE" then
    let req2 : SIPRequest :=
      if req1.header.toTag = none then
        { req1 with header.recordRoutes :=
            ("sip:" ++ ctx.localEndPoint.asString) :: req1.header.recordRoutes }
      else req1
    if ctx.remoteEndPoint.asString = m_appServerSocket then
      .ok [.send (.ep req2.getRequestEndPoint) req2 ctx.proxyBranch ctx.channelName]
    else
      let req3 : SIPRequest :=
        match req2.header.contact with
        | [] => req2
        | c :: cs =>
          { req2 with header.contact := { c with host := ctx.remoteEndPoint.asString } :: cs }
      .ok [.send (.socket m_appServerSocket) req3 ctx.proxyBranch ctx.channelName]
  else
    if ctx.remoteEndPoint.asString = m_appServerSocket then
      .ok [.send (.ep req1.getRequestEndPoint) req1 ctx.proxyBranch ctx.channelName]
    else
      .ok [.send (.socket m_appServerSocket) req1 ctx.proxyBranch ctx.channelName]

def Action.sentRequest : Action → Option SIPRequest
  | .send _ r _ _ => some r
  | _ => none

/-- The requests carried by the transport send calls of an action list. -/
def sentRequests (acts : List Action) : List SIPRequest :=
  acts.filterMap Action.sentRequest

end SIPS.OutboundProxy

/-! ## AppServer: SIPSorcery.SIPAppServer/proxyscript.py -/

namespace SIPS.AppServer

def m_appServerSocket : String := "udp:10.1.1.2:5065"
def m_registrarSocket : String := "udp:127.0.0.1:5001"
def m_regAgentSocket : String := "udp:127.0.0.1:5002"
def m_proxyExternalSocket : String := "udp:10.1.1.2:5060"

/-- `SIPEndPoint.ParseSIPEndPoint(m_proxyExternalSocket)`. -/
def proxyExternalEndPoint : SIPEndPoint := ⟨"udp", "10.1.1.2", 5060⟩

/-- `SIPEndPoint.ParseSIPEndPoint(m_regAgentSocket)`. -/
def regAgentEndPoint : SIPEndPoint := ⟨"udp", "127.0.0.1", 5002⟩

inductive Dest where
  | socket (s : String)
  | ep (e : SIPEndPoint)
deriving DecidableEq

/-- The last argument of the five-argument `sys.Send` is the flag telling the
transport whether to add a Record-Route header for this proxy. -/
inductive Action where
  | send (dst : Dest) (req : SIPRequest) (branch : String) (channelName : String)
      (addRecordRoute : Bool)
  | log (msg : String)
deriving DecidableEq

structure Ctx where
  remoteEndPoint : SIPEndPoint
  localEndPoint : SIPEndPoint
  proxyBranch : String
  channelName : String
  /-- `sys.Resolve(uri)` for the Route URI of a registration-agent REGISTER. -/
  resolveURI : SIPURI → SIPEndPoint
  /-- `sys.Resolve(req)`; null when the destination is unresolvable. -/
  resolveReq : SIPRequest → Option SIPEndPoint

/-- Lines 17-21 of the script: record the proxy socket a request from outside
arrived on, in the top Via's parameter bag, so that responses can be sent on
the same socket.  `TopViaHeader` is null when the Via stack is empty. -/
def tagArrivalSocket (ctx : Ctx) (req1 : SIPRequest) : Except String SIPRequest :=
  if ctx.remoteEndPoint.asString ≠ m_appServerSocket ∧
     ctx.remoteEndPoint.asString ≠ m_registrarSocket ∧
     ctx.remoteEndPoint.asString ≠ m_regAgentSocket then
    match req1.header.vias with
    | [] => .error "NullReferenceException: TopViaHeader"
    | v :: vs =>
      .ok { req1 with header.vias :=
              { v with params := setParam v.params "proxy" ctx.localEndPoint.asString } :: vs }
  else .ok req1

/-- The method dispatch of the script's request side, applied after the
initial Max-Forwards decrement and the arrival-socket tagging. -/
def dispatchRequest (ctx : Ctx) (req2 : SIPRequest) : Except String (List Action) :=
  if req2.method = "REGISTER" then
    if ctx.remoteEndPoint.asString = m_regAgentSocket then
      match req2.header.vias with
      | [] => .error "NullReferenceException: PopTopViaHeader"
      | v :: vs =>
        let req3 : SIPRequest := { req2 with header.vias := vs }
        match req3.header.routes with
        | [] => .error "NullReferenceException: PopRoute"
        | r :: _ =>
          let destRegistrar := ctx.resolveURI r.uri
          let req4 : SIPRequest :=
            { req3 with header.routes := [],
                        localSIPEndPoint := some proxyExternalEndPoint }
          .ok [.send (.ep destRegistrar) req4 v.branch ctx.channelName false]
    else
      let req3 : SIPRequest := { req2 with localSIPEndPoint := none }
      .ok [.send (.socket m_registrarSocket) req3 ctx.proxyBranch ctx.channelName false]
  else if req2.method = "INVITE" then
    if ctx.remoteEndPoint.asString = m_appServerSocket then
      match ctx.resolveReq req2 with
      | some dstEndPoint =>
        .ok [.send (.ep dstEndPoint) req2 ctx.proxyBranch ctx.channelName
              req2.header.toTag.isNone]
      | none =>
        .ok [.log ("Failed to resolve destination for INVITE to " ++ req2.uri.asString
              ++ ", request dropped.")]
    else
      let req3 : SIPRequest :=
        match req2.header.contact with
        | [] => req2
        | c :: cs =>
          { req2 with header.contact :=
              { c with host := ctx.remoteEndPoint.socketString } :: cs }
      let req4 : SIPRequest := { req3 with localSIPEndPoint := none }
      .ok [.send (.socket m_appServerSocket) req4 ctx.proxyBranch ctx.channelName
            req4.header.toTag.isNone]
  else
    let lg : List Action :=
      if req2.method = "BYE" then [.log ("BYE Routes=" ++ req2.receivedRoute ++ ".")]
      else []
    let req3 : SIPRequest :=
      { req2 with header.maxForwards := req2.header.maxForwards - 1,
                  localSIPEndPoint := none }
    if ctx.remoteEndPoint.asString = m_appServerSocket then
      match ctx.resolveReq req3 with
      | some dstEndPoint =>
        .ok (lg ++ [.send (.ep dstEndPoint) req3 ctx.proxyBranch ctx.channelName false])
      | none =>
        .ok (lg ++ [.log ("Failed to resolve destination for " ++ req3.method ++ " to "
              ++ req3.uri.asString ++ ", request dropped.")])
    else
      .ok (lg ++ [.send (.socket m_appServerSocket) req3 ctx.proxyBranch ctx.channelName false])

/-- The request side of SIPSorcery.SIPAppServer/proxyscript.py. -/
def processRequest (ctx : Ctx) (req0 : SIPRequest) : Except String (List Action) :=
  let req1 : SIPRequest := { req0 with header.maxForwards := req0.header.maxForwards - 1 }
  match tagArrivalSocket ctx req1 with
  | .error e => .error e
  | .ok req2 => dispatchRequest ctx req2

def Action.sentRequest : Action → Option SIPRequest
  | .send _ r _ _ _ => some r
  | _ => none

def sentRequests (acts : List Action) : List SIPRequest :=
  acts.filterMap Action.sentRequest

end SIPS.AppServer

/-! ## ProxyLocal: SIPSorcery.SIPProxy/ExampleProxyScripts/proxyscript-local.py -/

namespace SIPS.ProxyLocal

def m_registrarSocket : String := "udp:127.0.0.1:5001"
def m_regAgentSocket : String := "udp:127.0.0.1:5002"
def m_notifierSocket : String := "udp:127.0.0.1:5003"
def m_appServerSocket : String := "udp:10.1.1.5:5065"
def m_proxySocketInternal : String := "udp:10.1.1.5:5060"
def m_proxySocketLoopback : String := "udp:127.0.0.1:5060"

/-- `SIPEndPoint.ParseSIPEndPoint(m_proxySocketInternal)`. -/
def proxySocketInternalEndPoint : SIPEndPoint := ⟨"udp", "10.1.1.5", 5060⟩

/-- `SIPEndPoint.ParseSIPEndPoint(m_proxySocketLoopback)`. -/
def proxySocketLoopbackEndPoint : SIPEndPoint := ⟨"udp", "127.0.0.1", 5060⟩

/-- `GetAppServer()`: this deployment has the single static app-server socket. -/
def GetAppServer : String := m_appServerSocket

/-- `IsLocalNetDestination(destinationEP)`: string-prefix private-network test. -/
def IsLocalNetDestination (destinationEP : SIPEndPoint) : Bool :=
  strStartsWith destinationEP.address "10."

/-- The result object of `sys.Resolve(req)` in this script: `Pending`,
`LookupError` and `EndPointResults` (null or a list whose entries carry
`LookupEndPoint`). -/
structure SIPDNSLookupResult where
  pending : Bool
  lookupError : Option String
  endPointResults : Option (List SIPEndPoint)

inductive Action where
  | sendTransparentReq (dst : SIPEndPoint) (req : SIPRequest) (publicIP : Option String)
  | sendExternalReq (receivedOn : Option SIPEndPoint) (dst : SIPEndPoint) (req : SIPRequest)
      (branch : Option String) (publicIP : Option String)
  | sendInternalReq (remote localEP : SIPEndPoint) (dstSocket : String) (req : SIPRequest)
      (branch : String) (viaChannel : String)
  | respond (req : SIPRequest) (status : SIPResponseStatus) (reason : String)
  | sendExternalResp (resp : SIPResponse) (sendFrom : SIPEndPoint) (publicIP : Option String)
  | sendTransparentResp (remote localEP : SIPEndPoint) (resp : SIPResponse)
      (proxySocket : SIPEndPoint) (dst : String) (branch : String)
  | sendInternalResp (remote localEP : SIPEndPoint) (resp : SIPResponse) (outSock : SIPEndPoint)
  | log (msg : String)
deriving DecidableEq

structure Ctx where
  remoteEndPoint : SIPEndPoint
  localEndPoint : SIPEndPoint
  proxyBranch : String
  publicip : Option String
  outSocket : SIPEndPoint
  topVia : SIPViaHeader
  resolveReq : SIPRequest → SIPDNSLookupResult
  resolveResp : SIPResponse → Option SIPEndPoint
  dispatcherLookupReq : SIPRequest → Option String
  dispatcherLookupResp : SIPResponse → Option String

/-- The script's `SendExternalRequest(receivedOn, req, proxyBranch, publicIP,
sendTransparently)` utility. -/
def SendExternalRequest (ctx : Ctx) (receivedOn : Option SIPEndPoint) (req : SIPRequest)
    (proxyBranch : Option String) (publicIP : Option String) (sendTransparently : Bool) :
    List Action :=
  let lookupResult := ctx.resolveReq req
  if lookupResult.pending then
    [.log ("DNS lookup pending for " ++ req.uri.host ++ ".")]
  else if lookupResult.lookupError ≠ none ∨ lookupResult.endPointResults = none ∨
          lookupResult.endPointResults = some [] then
    if req.method ≠ "ACK" then
      [.respond req .DoesNotExistAnywhere ("Host " ++ req.uri.host ++ " unresolvable")]
    else []
  else
    match lookupResult.endPointResults with
    | some (dest :: _) =>
      if IsLocalNetDestination dest then
        if sendTransparently then [.sendTransparentReq dest req none]
        else [.sendExternalReq receivedOn dest req proxyBranch none]
      else
        if sendTransparently then [.sendTransparentReq dest req publicIP]
        else [.sendExternalReq receivedOn dest req proxyBranch publicIP]
    | _ => []

/-- The script's `SendExternalResponse(resp, sendFromSIPEndPoint, publicIP)`
utility. -/
def SendExternalResponse (ctx : Ctx) (resp : SIPResponse) (sendFrom : SIPEndPoint)
    (publicIP : Option String) : List Action :=
  match ctx.resolveResp resp with
  | none =>
    [.log "The destination could not be resolved for a SIP response.", .log resp.asString]
  | some dest =>
    if IsLocalNetDestination dest then [.sendExternalResp resp sendFrom none]
    else [.sendExternalResp resp sendFrom publicIP]

/-- Lines 84-85 of the script: strip the rport Via parameter for the two
Cisco phone user agents.  `TopViaHeader` is null when the Via stack is empty. -/
def ciscoStrip (req1 : SIPRequest) : Except String SIPRequest :=
  if req1.header.userAgent = "Cisco-CP7965G/8.5.3" ∨
     req1.header.userAgent = "Cisco-CP7911G/8.5.3" then
    match req1.header.vias with
    | [] => .error "NullReferenceException: TopViaHeader"
    | v :: vs =>
      .ok { req1 with header.vias := { v with params := removeParam v.params "rport" } :: vs }
  else .ok req1

/-- The method dispatch of the script's request side, applied after the
Max-Forwards decrement and the Cisco rport stripping. -/
def dispatchRequest (ctx : Ctx) (req2 : SIPRequest) : Except String (List Action) :=
  if req2.method = "REGISTER" then
    if ctx.remoteEndPoint.asString = m_regAgentSocket then
      match req2.header.routes with
      | [] =>
        .ok [.log ("Registration agent request was missing Route header.\n" ++ req2.asString)]
      | r :: _ =>
        let req3 : SIPRequest := { req2 with header.routes := [] }
        .ok [.sendTransparentReq r.toSIPEndPoint req3 ctx.publicip]
    else
      .ok [.sendInternalReq ctx.remoteEndPoint ctx.localEndPoint m_registrarSocket req2
            ctx.proxyBranch m_proxySocketLoopback]
  else if req2.method = "SUBSCRIBE" then
    .ok [.sendInternalReq ctx.remoteEndPoint ctx.localEndPoint m_notifierSocket req2
          ctx.proxyBranch m_proxySocketLoopback]
  else if req2.method = "NOTIFY" then
    if ctx.remoteEndPoint.asString = m_appServerSocket ∨
       ctx.remoteEndPoint.asString = m_notifierSocket then
      .ok (SendExternalRequest ctx (some ctx.localEndPoint) req2 (some ctx.proxyBranch)
            ctx.publicip false)
    else
      match req2.header.event with
      | some ev =>
        if strStartsWith ev "refer" then
          .ok [.sendInternalReq ctx.remoteEndPoint ctx.localEndPoint GetAppServer req2
                ctx.proxyBranch m_proxySocketInternal]
        else
          .ok [.sendInternalReq ctx.remoteEndPoint ctx.localEndPoint m_notifierSocket req2
                ctx.proxyBranch m_proxySocketLoopback]
      | none =>
        .ok [.sendInternalReq ctx.remoteEndPoint ctx.localEndPoint m_notifierSocket req2
              ctx.proxyBranch m_proxySocketLoopback]
  else
    if ctx.remoteEndPoint.asString = m_appServerSocket then
      if req2.method = "ACK" ∨ req2.method = "CANCEL" ∨ req2.method = "INVITE" then
        .ok (SendExternalRequest ctx none req2 none ctx.publicip true)
      else
        .ok (SendExternalRequest ctx (some ctx.localEndPoint) req2 (some ctx.proxyBranch)
              ctx.publicip false)
    else
      match ctx.dispatcherLookupReq req2 with
      | some dispatcherEndPoint =>
        .ok [.sendInternalReq ctx.remoteEndPoint ctx.localEndPoint dispatcherEndPoint req2
              ctx.proxyBranch m_proxySocketInternal]
      | none =>
        -- GetAppServer() is the static socket constant, so the
        -- "No sipsorcery app servers available" BadGateway arm is not
        -- reachable in this deployment variant.
        .ok [.sendInternalReq ctx.remoteEndPoint ctx.localEndPoint GetAppServer req2
              ctx.proxyBranch m_proxySocketInternal]

/-- The request side of proxyscript-local.py. -/
def processRequest (ctx : Ctx) (req0 : SIPRequest) : Except String (List Action) :=
  let req1 : SIPRequest := { req0 with header.maxForwards := req0.header.maxForwards - 1 }
  match ciscoStrip req1 with
  | .error e => .error e
  | .ok req2 => dispatchRequest ctx req2

/-- The response side of proxyscript-local.py.  For a response, the host sets
`sipMethod` from the CSeq method of the response. -/
def processResponse (ctx : Ctx) (resp : SIPResponse) : List Action :=
  let sipMethod := resp.header.cseqMethod
  if sipMethod = "REGISTER" ∧ ctx.remoteEndPoint.asString = m_registrarSocket then
    -- Two-argument sys.SendExternal: no public IP override is supplied.
    [.sendExternalResp resp ctx.outSocket none]
  else if sipMethod = "REGISTER" then
    [.sendTransparentResp ctx.remoteEndPoint ctx.localEndPoint resp proxySocketLoopbackEndPoint
      m_regAgentSocket ctx.topVia.branch]
  else if sipMethod = "NOTIFY" ∨ sipMethod = "SUBSCRIBE" then
    if ctx.remoteEndPoint.asString ≠ m_notifierSocket ∧
       ctx.remoteEndPoint.asString ≠ m_appServerSocket then
      [.sendInternalResp ctx.remoteEndPoint ctx.localEndPoint resp ctx.outSocket]
    else
      SendExternalResponse ctx resp ctx.outSocket ctx.publicip
  else
    if ctx.remoteEndPoint.asString = m_appServerSocket then
      SendExternalResponse ctx resp ctx.outSocket ctx.publicip
    else
      if resp.header.cseqMethod = "ACK" ∨ resp.header.cseqMethod = "CANCEL" ∨
         resp.header.cseqMethod = "INVITE" then
        let dispatcherEndPoint := (ctx.dispatcherLookupResp resp).getD GetAppServer
        [.sendTransparentResp ctx.remoteEndPoint ctx.localEndPoint resp
          proxySocketInternalEndPoint dispatcherEndPoint ctx.topVia.branch]
      else
        [.sendInternalResp ctx.remoteEndPoint ctx.localEndPoint resp proxySocketInternalEndPoint]

/-- The public IP override an action passes to the transport for Contact/Via
substitution (`none` for actions that carry no override). -/
def Action.overrideIP : Action → Option String
  | .sendTransparentReq _ _ p => p
  | .sendExternalReq _ _ _ _ p => p
  | .sendExternalResp _ _ p => p
  | _ => none

def Action.isSendInternalTo (dst : String) : Action → Bool
  | .sendInternalReq _ _ d _ _ _ => d == dst
  | _ => false

end SIPS.ProxyLocal

namespace SIPS

/-- Modelled from the spec: the Via admission guard for responses runs in the
C# proxy core before the routing script is invoked (the scripts receive the
already popped `topVia` from the host); that core is not among the provided
source files.  Per the spec, the core pops the top Via of an incoming response
and drops the response with a diagnostic log when the popped Via's address is
not one of the proxy's configured local socket identities; only when the Via
matches does the routing script run. -/
def responseAdmission (localSockets : List SIPEndPoint) (resp : SIPResponse) :
    Option (SIPViaHeader × SIPResponse) :=
  match resp.header.vias with
  | [] => none
  | v :: rest =>
    if v.endpoint ∈ localSockets then some (v, { resp with header.vias := rest })
    else none

/-- Modelled from the spec: response handling end to end — the admission guard
followed, on success, by the proxyscript-local response script with the popped
Via supplied as `topVia`. -/
def routeResponse (localSockets : List SIPEndPoint) (ctx : ProxyLocal.Ctx)
    (resp : SIPResponse) : List ProxyLocal.Action :=
  match responseAdmission localSockets resp with
  | none =>
    [.log "Dropping SIP response: the top Via header does not match a local proxy socket."]
  | some (topVia, stripped) => ProxyLocal.processResponse { ctx with topVia := topVia } stripped

end SIPS

/-! ## ProxyExample: SIPSorcery.SIPProxy/ExampleProxyScripts/proxyscript.py -/

namespace SIPS.ProxyExample

def m_registrarSocket : String := "udp:127.0.0.1:5001"
def m_regAgentSocket : String := "udp:127.0.0.1:5002"
def m_notifierSocket : String := "udp:10.249.142.143:5003"
def m_proxySocketLoopback : String := "udp:127.0.0.1:5060"
def m_proxySocketInternal : String := "udp:10.249.142.143:5060"

/-- `SIPEndPoint.ParseSIPEndPoint(m_proxySocketInternal)`. -/
def proxySocketInternalEndPoint : SIPEndPoint := ⟨"udp", "10.249.142.143", 5060⟩

/-- This deployment variant's `IsLocalNetDestination` returns False for every
destination. -/
def IsLocalNetDestination (_destinationEP : SIPEndPoint) : Bool := false

inductive Action where
  | sendExternalResp2 (resp : SIPResponse) (sendFrom : SIPEndPoint)
  | sendExternalResp3 (resp : SIPResponse) (sendFrom : SIPEndPoint) (publicIP : Option String)
  | sendTransparentResp (remote localEP : SIPEndPoint) (resp : SIPResponse)
      (proxySocket : SIPEndPoint) (dst : String) (branch : String)
  | sendInternalResp (remote localEP : SIPEndPoint) (resp : SIPResponse) (outSock : SIPEndPoint)
  | log (msg : String)
deriving DecidableEq

structure Ctx where
  remoteEndPoint : SIPEndPoint
  localEndPoint : SIPEndPoint
  outSocket : SIPEndPoint
  publicip : Option String
  topVia : SIPViaHeader
  /-- The host-provided `IsFromAppServer` flag this variant reads. -/
  isFromAppServer : Bool
  resolveResp : SIPResponse → Option SIPEndPoint
  dispatcherLookupResp : SIPResponse → Option String

/-- This variant's `SendExternalResponse(resp, sendFromSIPEndPoint, publicIP)`:
on a local destination the two-argument `sys.SendExternal` overload is used. -/
def SendExternalResponse (ctx : Ctx) (resp : SIPResponse) (sendFrom : SIPEndPoint)
    (publicIP : Option String) : List Action :=
  match ctx.resolveResp resp with
  | none =>
    [.log "The destination could not be resolved for a SIP response.", .log resp.asString]
  | some dest =>
    if IsLocalNetDestination dest then [.sendExternalResp2 resp sendFrom]
    else [.sendExternalResp3 resp sendFrom publicIP]

/-- The response side of ExampleProxyScripts/proxyscript.py.  On the
external-UA dispatcher path the script assigns `dstEndPoint =
sys.DispatcherLookup(resp)` but then tests the name `dispatcherEndPoint`,
which is never assigned on the response path of the script, so the branch
raises a NameError instead of performing the fallback send. -/
def processResponse (ctx : Ctx) (resp : SIPResponse) : Except String (List Action) :=
  let sipMethod := resp.header.cseqMethod
  if sipMethod = "REGISTER" ∧ ctx.remoteEndPoint.asString = m_registrarSocket then
    .ok [.sendExternalResp2 resp ctx.outSocket]
  else if sipMethod = "REGISTER" then
    .ok [.sendTransparentResp ctx.remoteEndPoint ctx.localEndPoint resp
          proxySocketInternalEndPoint m_regAgentSocket ctx.topVia.branch]
  else if sipMethod = "NOTIFY" ∨ sipMethod = "SUBSCRIBE" then
    if ctx.remoteEndPoint.asString ≠ m_notifierSocket ∧ ¬ctx.isFromAppServer then
      .ok [.sendInternalResp ctx.remoteEndPoint ctx.localEndPoint resp ctx.outSocket]
    else
      .ok (SendExternalResponse ctx resp ctx.outSocket ctx.publicip)
  else
    if ctx.isFromAppServer then
      .ok (SendExternalResponse ctx resp ctx.outSocket ctx.publicip)
    else
      if resp.header.cseqMethod = "ACK" ∨ resp.header.cseqMethod = "CANCEL" ∨
         resp.header.cseqMethod = "INVITE" then
        .error "NameError: name dispatcherEndPoint is not defined"
      else
        .ok [.sendInternalResp ctx.remoteEndPoint ctx.localEndPoint resp
              proxySocketInternalEndPoint]

/-- The guard `req.Method != "ACK"` on this variant's failed-resolution path:
it compares the request's SIPMethodsEnum value to a string without calling
ToString() — unlike every other Method comparison in these scripts — and a
.NET enum value never equals a string in IronPython, so the guard holds for
every request, ACK included. -/
def methodNeverEqualsStringAck (_req : SIPRequest) : Bool := true

/-- This variant's `SendExternalRequest(receivedOn, req, proxyBranch, publicIP,
sendTransparently)`: `sys.Resolve(req)` returns an endpoint or null. -/
def SendExternalRequest (resolveReq : SIPRequest → Option SIPEndPoint)
    (receivedOn : Option SIPEndPoint) (req : SIPRequest) (proxyBranch : Option String)
    (publicIP : Option String) (sendTransparently : Bool) : List ProxyLocal.Action :=
  match resolveReq req with
  | none =>
    if methodNeverEqualsStringAck req then
      [.respond req .DoesNotExistAnywhere ("Host " ++ req.uri.host ++ " unresolvable")]
    else []
  | some dest =>
    if IsLocalNetDestination dest then
      if sendTransparently then [.sendTransparentReq dest req none]
      else [.sendExternalReq receivedOn dest req proxyBranch none]
    else
      if sendTransparently then [.sendTransparentReq dest req publicIP]
      else [.sendExternalReq receivedOn dest req proxyBranch publicIP]

end SIPS.ProxyExample

/-! ## Claims -/

namespace SIPS

/-- A Via entry whose parameter bag is observable to the engine (the AppServer
response path reads the popped Via's "cn" parameter). -/
def c9via : SIPViaHeader :=
  ⟨⟨"udp", "127.0.0.1", 5002⟩, "z9hG4bK-agent1", [("cn", "udpchannel1")]⟩

/-- C9 counterexample: popping the top Via and pushing a fresh
`SIPViaHeader(endpoint, branch)` for the same endpoint and branch does not
reconstruct the original Via stack when the popped Via carried an extra
parameter — the rebuilt Via has an empty parameter bag, and Via parameters
(for example "cn") are observed by the engine itself. -/
theorem c9_via_pop_push_not_identity :
    pushViaHeader (mkSIPViaHeader c9via.endpoint c9via.branch) (popTopViaHeader [c9via]).2
      ≠ [c9via] := by
  decide

/-- C9 (amended): popping the top Via ⟨E, b, ps⟩ and pushing a fresh Via for
the same endpoint E with the same branch b yields a stack that agrees with the
original in every Via's (endpoint, branch) projection, and is exactly the
original stack when the popped Via carried no extra parameters. -/
theorem c9_via_pop_push_roundtrip (vias : List SIPViaHeader) (e : SIPEndPoint) (b : String)
    (ps : List (String × String)) (rest : List SIPViaHeader)
    (h : vias = ⟨e, b, ps⟩ :: rest) :
    (pushViaHeader (mkSIPViaHeader e b) (popTopViaHeader vias).2).map viaKey
        = vias.map viaKey ∧
    (ps = [] → pushViaHeader (mkSIPViaHeader e b) (popTopViaHeader vias).2 = vias) := by
  subst h
  refine ⟨rfl, ?_⟩
  rintro rfl
  rfl

/-- Witness for `c9_via_pop_push_roundtrip` at the registration-agent Via of
the REGISTER response path. -/
theorem c9_via_pop_push_roundtrip_witness :
    (pushViaHeader (mkSIPViaHeader ⟨"udp", "127.0.0.1", 5002⟩ "z9hG4bK-agent1")
        (popTopViaHeader [⟨⟨"udp", "127.0.0.1", 5002⟩, "z9hG4bK-agent1", []⟩]).2).map viaKey
      = [⟨⟨"udp", "127.0.0.1", 5002⟩, "z9hG4bK-agent1", []⟩].map viaKey ∧
    (([] : List (String × String)) = [] →
      pushViaHeader (mkSIPViaHeader ⟨"udp", "127.0.0.1", 5002⟩ "z9hG4bK-agent1")
        (popTopViaHeader [⟨⟨"udp", "127.0.0.1", 5002⟩, "z9hG4bK-agent1", []⟩]).2
        = [⟨⟨"udp", "127.0.0.1", 5002⟩, "z9hG4bK-agent1", []⟩]) :=
  c9_via_pop_push_roundtrip _ _ _ _ _ rfl

/-- C3: a response whose popped top Via does not name one of the proxy's
configured local sockets is dropped with a diagnostic log; the routing script
never runs for it, so no send or forwarding call occurs. -/
theorem c3_unmatched_via_response_dropped (localSockets : List SIPEndPoint)
    (ctx : ProxyLocal.Ctx) (resp : SIPResponse) (v : SIPViaHeader) (rest : List SIPViaHeader)
    (hvias : resp.header.vias = v :: rest)
    (hnotlocal : v.endpoint ∉ localSockets) :
    routeResponse localSockets ctx resp =
      [.log "Dropping SIP response: the top Via header does not match a local proxy socket."] := by
  unfold routeResponse responseAdmission
  rw [hvias]
  simp [hnotlocal]

def c3localSockets : List SIPEndPoint :=
  [⟨"udp", "10.1.1.5", 5060⟩, ⟨"udp", "127.0.0.1", 5060⟩]

def c3resp : SIPResponse :=
  { statusCode := 200
    header :=
      { maxForwards := 70
        vias := [⟨⟨"udp", "192.0.2.77", 5060⟩, "z9hG4bK-foreign", []⟩]
        routes := []
        recordRoutes := []
        contact := []
        toTag := some "totag1"
        userAgent := "ua"
        event := none
        cseqMethod := "INVITE" }
    localSIPEndPoint := none }

def c3ctx : ProxyLocal.Ctx :=
  { remoteEndPoint := ⟨"udp", "192.0.2.77", 5060⟩
    localEndPoint := ⟨"udp", "10.1.1.5", 5060⟩
    proxyBranch := "z9hG4bK-proxy3"
    publicip := some "67.1.1.1"
    outSocket := ⟨"udp", "10.1.1.5", 5060⟩
    topVia := ⟨⟨"udp", "10.1.1.5", 5060⟩, "z9hG4bK-proxy3", []⟩
    resolveReq := fun _ => ⟨false, none, none⟩
    resolveResp := fun _ => none
    dispatcherLookupReq := fun _ => none
    dispatcherLookupResp := fun _ => none }

/-- Witness for `c3_unmatched_via_response_dropped`: a response whose top Via
names 192.0.2.77:5060, which is not a local proxy socket. -/
theorem c3_unmatched_via_response_dropped_witness :
    routeResponse c3localSockets c3ctx c3resp =
      [.log "Dropping SIP response: the top Via header does not match a local proxy socket."] :=
  c3_unmatched_via_response_dropped c3localSockets c3ctx c3resp
    ⟨⟨"udp", "192.0.2.77", 5060⟩, "z9hG4bK-foreign", []⟩ [] rfl (by decide)

/-- C2: a REGISTER arriving from the Registration-Agent socket with a Route
header is forwarded to the endpoint named by the popped Route header, carrying
the branch of the Via popped from the agent's original message, and the
outbound message has zero Route headers. -/
theorem c2_regagent_register_forwarding (ctx : OutboundProxy.Ctx) (req : SIPRequest)
    (v : SIPViaHeader) (vs : List SIPViaHeader) (r : SIPRoute) (rs : List SIPRoute)
    (hremote : ctx.remoteEndPoint.asString = OutboundProxy.m_regAgentSocket)
    (hmethod : req.method = "REGISTER")
    (hvias : req.header.vias = v :: vs)
    (hroutes : req.header.routes = r :: rs) :
    ∃ out : SIPRequest,
      OutboundProxy.processRequest ctx req =
        .ok [.send (.ep r.toSIPEndPoint) out v.branch ctx.channelName] ∧
      out.header.routes = [] := by
  unfold OutboundProxy.processRequest
  simp only [hmethod, hremote, hvias, hroutes]
  exact ⟨_, rfl, rfl⟩

def c2ctx : OutboundProxy.Ctx :=
  { remoteEndPoint := ⟨"udp", "127.0.0.1", 5002⟩
    localEndPoint := ⟨"udp", "127.0.0.1", 5060⟩
    proxyBranch := "z9hG4bK-proxy2"
    channelName := "udpchannel" }

def c2req : SIPRequest :=
  { method := "REGISTER"
    uri := ⟨"sip", "registrar.example.com", 5060⟩
    header :=
      { maxForwards := 70
        vias := [⟨⟨"udp", "127.0.0.1", 5002⟩, "z9hG4bK-agent1", []⟩]
        routes := [⟨⟨"sip", "127.0.0.1", 5001⟩⟩]
        recordRoutes := []
        contact := []
        toTag := none
        userAgent := "reg-agent"
        event := none
        cseqMethod := "REGISTER" }
    receivedRoute := ""
    localSIPEndPoint := none }

/-- Witness for `c2_regagent_register_forwarding`: the spec scenario — a
REGISTER from 127.0.0.1:5002 with Via branch z9hG4bK-agent1 and Route
sip:127.0.0.1:5001. -/
theorem c2_regagent_register_forwarding_witness :
    ∃ out : SIPRequest,
      OutboundProxy.processRequest c2ctx c2req =
        .ok [.send (.ep (SIPRoute.toSIPEndPoint ⟨⟨"sip", "127.0.0.1", 5001⟩⟩)) out
              "z9hG4bK-agent1" "udpchannel"] ∧
      out.header.routes = [] :=
  c2_regagent_register_forwarding c2ctx c2req
    ⟨⟨"udp", "127.0.0.1", 5002⟩, "z9hG4bK-agent1", []⟩ [] ⟨⟨"sip", "127.0.0.1", 5001⟩⟩ []
    rfl rfl rfl rfl

/-- C1: over the whole request side of the outbound proxy, a forwarded
message's Record-Route list gains exactly one entry for this proxy when the
request is a dialog-establishing INVITE (To-tag absent), and is left unchanged
for every other request — in particular for every in-dialog request (To-tag
present), whatever its method. -/
theorem c1_record_route_iff_dialog_establishing (ctx : OutboundProxy.Ctx) (req : SIPRequest)
    (acts : List OutboundProxy.Action)
    (h : OutboundProxy.processRequest ctx req = .ok acts)
    (m : SIPRequest) (hm : m ∈ OutboundProxy.sentRequests acts) :
    m.header.recordRoutes =
      if req.method = "INVITE" ∧ req.header.toTag = none then
        ("sip:" ++ ctx.localEndPoint.asString) :: req.header.recordRoutes
      else req.header.recordRoutes := by
  unfold OutboundProxy.processRequest at h
  dsimp only at h
  repeat' split at h
  all_goals first
    | exact Except.noConfusion h
    | (simp only [Except.ok.injEq] at h
       subst h
       simp only [OutboundProxy.sentRequests, OutboundProxy.Action.sentRequest,
         List.filterMap_cons, List.filterMap_nil, List.mem_singleton] at hm
       subst hm
       simp_all)

def c1ctx : OutboundProxy.Ctx :=
  { remoteEndPoint := ⟨"udp", "203.0.113.9", 5060⟩
    localEndPoint := ⟨"udp", "127.0.0.1", 5060⟩
    proxyBranch := "z9hG4bK-p1"
    channelName := "udpchan" }

def c1req : SIPRequest :=
  { method := "INVITE"
    uri := ⟨"sip", "user.example.com", 5060⟩
    header :=
      { maxForwards := 70
        vias := [⟨⟨"udp", "203.0.113.9", 5060⟩, "z9hG4bK-ua1", []⟩]
        routes := []
        recordRoutes := []
        contact := [⟨"192.168.0.5"⟩]
        toTag := none
        userAgent := "softphone"
        event := none
        cseqMethod := "INVITE" }
    receivedRoute := ""
    localSIPEndPoint := none }

def c1out : SIPRequest :=
  { method := "INVITE"
    uri := ⟨"sip", "user.example.com", 5060⟩
    header :=
      { maxForwards := 69
        vias := [⟨⟨"udp", "203.0.113.9", 5060⟩, "z9hG4bK-ua1", []⟩]
        routes := []
        recordRoutes := ["sip:udp:127.0.0.1:5060"]
        contact := [⟨"udp:203.0.113.9:5060"⟩]
        toTag := none
        userAgent := "softphone"
        event := none
        cseqMethod := "INVITE" }
    receivedRoute := ""
    localSIPEndPoint := none }

def c1acts : List OutboundProxy.Action :=
  [.send (.socket OutboundProxy.m_appServerSocket) c1out "z9hG4bK-p1" "udpchan"]

/-- Witness for `c1_record_route_iff_dialog_establishing`: the spec scenario —
a dialog-establishing INVITE from an external UA at 203.0.113.9:5060 gets
exactly one Record-Route entry for the proxy and a mangled Contact. -/
theorem c1_record_route_iff_dialog_establishing_witness :
    OutboundProxy.processRequest c1ctx c1req = .ok c1acts ∧
    c1out ∈ OutboundProxy.sentRequests c1acts ∧
    c1out.header.recordRoutes =
      (if c1req.method = "INVITE" ∧ c1req.header.toTag = none then
        ("sip:" ++ c1ctx.localEndPoint.asString) :: c1req.header.recordRoutes
      else c1req.header.recordRoutes) :=
  ⟨rfl, by decide,
    c1_record_route_iff_dialog_establishing c1ctx c1req c1acts rfl c1out (by decide)⟩

def c5ctx : AppServer.Ctx :=
  { remoteEndPoint := ⟨"udp", "10.1.1.2", 5065⟩
    localEndPoint := ⟨"udp", "10.1.1.2", 5060⟩
    proxyBranch := "z9hG4bK-p5"
    channelName := "chan5"
    resolveURI := fun _ => ⟨"udp", "99.1.2.3", 5060⟩
    resolveReq := fun _ => some ⟨"udp", "99.1.2.3", 5060⟩ }

def c5req : SIPRequest :=
  { method := "BYE"
    uri := ⟨"sip", "callee.example.net", 5060⟩
    header :=
      { maxForwards := 70
        vias := [⟨⟨"udp", "10.1.1.2", 5065⟩, "z9hG4bK-as1", []⟩]
        routes := []
        recordRoutes := []
        contact := []
        toTag := some "totag5"
        userAgent := "appserver"
        event := none
        cseqMethod := "BYE" }
    receivedRoute := ""
    localSIPEndPoint := none }

def c5out : SIPRequest :=
  { c5req with header.maxForwards := 68, localSIPEndPoint := none }

def c5acts : List AppServer.Action :=
  [.log "BYE Routes=.",
   .send (.ep ⟨"udp", "99.1.2.3", 5060⟩) c5out "z9hG4bK-p5" "chan5" false]

/-- C5 counterexample: a BYE arriving at the AppServer proxy variant with
Max-Forwards 70 leaves with Max-Forwards 68 — the catch-all branch's second
decrement is a real decrement, not a no-op, so the forwarded value is the
arriving value minus two, not minus one. -/
theorem c5_second_decrement_not_noop :
    AppServer.processRequest c5ctx c5req = .ok c5acts ∧
    (AppServer.sentRequests c5acts).map (fun m => m.header.maxForwards) = [68] ∧
    c5req.header.maxForwards = 70 ∧ ¬((68 : Int) = 70 - 1) :=
  ⟨rfl, rfl, rfl, by decide⟩

/-- The arrival-socket tagging step only touches the top Via's parameter bag:
method and Max-Forwards are preserved. -/
theorem appServer_tag_preserves (ctx : AppServer.Ctx) (r1 r2 : SIPRequest)
    (h : AppServer.tagArrivalSocket ctx r1 = .ok r2) :
    r2.method = r1.method ∧ r2.header.maxForwards = r1.header.maxForwards := by
  unfold AppServer.tagArrivalSocket at h
  split at h
  · split at h
    · exact Except.noConfusion h
    · simp only [Except.ok.injEq] at h
      subst h
      exact ⟨rfl, rfl⟩
  · simp only [Except.ok.injEq] at h
    subst h
    exact ⟨rfl, rfl⟩

/-- The catch-all method branch of the AppServer dispatch decrements
Max-Forwards once more before sending. -/
theorem appServer_dispatch_maxForwards (ctx : AppServer.Ctx) (req2 : SIPRequest)
    (acts : List AppServer.Action)
    (hR : req2.method ≠ "REGISTER") (hI : req2.method ≠ "INVITE")
    (h : AppServer.dispatchRequest ctx req2 = .ok acts) :
    ∀ m ∈ AppServer.sentRequests acts, m.header.maxForwards = req2.header.maxForwards - 1 := by
  intro m hm
  unfold AppServer.dispatchRequest at h
  dsimp only at h
  repeat' split at h
  all_goals first
    | exact Except.noConfusion h
    | (simp only [Except.ok.injEq] at h
       subst h
       simp_all [AppServer.sentRequests, AppServer.Action.sentRequest])

/-- C5 (amended): in the AppServer proxy variant, every request whose method
is neither REGISTER nor INVITE is forwarded with Max-Forwards equal to the
arriving value minus two — the catch-all branch decrements Max-Forwards a
second time on top of the initial per-request decrement, so that decrement is
not a no-op. -/
theorem c5_other_methods_max_forwards (ctx : AppServer.Ctx) (req : SIPRequest)
    (acts : List AppServer.Action)
    (hR : req.method ≠ "REGISTER") (hI : req.method ≠ "INVITE")
    (h : AppServer.processRequest ctx req = .ok acts) :
    ∀ m ∈ AppServer.sentRequests acts, m.header.maxForwards = req.header.maxForwards - 2 := by
  intro m hm
  unfold AppServer.processRequest at h
  dsimp only at h
  rcases htag : AppServer.tagArrivalSocket ctx
      { req with header.maxForwards := req.header.maxForwards - 1 } with e | req2
  · rw [htag] at h
    exact Except.noConfusion h
  · rw [htag] at h
    obtain ⟨hmeth, hmf⟩ := appServer_tag_preserves ctx _ req2 htag
    have hsent := appServer_dispatch_maxForwards ctx req2 acts
      (by simpa [hmeth] using hR) (by simpa [hmeth] using hI) h m hm
    rw [hsent, hmf]
    dsimp only
    omega

/-- Witness for `c5_other_methods_max_forwards` at a concrete BYE. -/
theorem c5_other_methods_max_forwards_witness :
    c5out ∈ AppServer.sentRequests c5acts ∧
    c5out.header.maxForwards = c5req.header.maxForwards - 2 :=
  ⟨by decide,
    c5_other_methods_max_forwards c5ctx c5req c5acts (by decide) (by decide) rfl c5out
      (by decide)⟩

def c4ctx : AppServer.Ctx :=
  { remoteEndPoint := ⟨"udp", "10.1.1.2", 5065⟩
    localEndPoint := ⟨"udp", "10.1.1.2", 5060⟩
    proxyBranch := "z9hG4bK-p4"
    channelName := "chan4"
    resolveURI := fun _ => ⟨"udp", "99.1.2.3", 5060⟩
    resolveReq := fun _ => none }

def c4req : SIPRequest :=
  { method := "INVITE"
    uri := ⟨"sip", "nowhere.invalid", 5060⟩
    header :=
      { maxForwards := 70
        vias := [⟨⟨"udp", "10.1.1.2", 5065⟩, "z9hG4bK-as4", []⟩]
        routes := []
        recordRoutes := []
        contact := []
        toTag := none
        userAgent := "appserver"
        event := none
        cseqMethod := "INVITE" }
    receivedRoute := ""
    localSIPEndPoint := none }

/-- C4 counterexample: in the AppServer proxy variant an INVITE (a method
other than ACK) whose destination fails to resolve produces only a diagnostic
log — the whole output is the single log action, so no "does not exist
anywhere" response is generated (the variant's action type has no respond
call at all) and the request is silently dropped, contradicting the claim for
this forwarded request. -/
theorem c4_unresolvable_invite_only_logged :
    AppServer.processRequest c4ctx c4req =
      .ok [.log "Failed to resolve destination for INVITE to sip:nowhere.invalid:5060, request dropped."] ∧
    c4req.method ≠ "ACK" :=
  ⟨rfl, by decide⟩

/-- C4 (amended): in proxyscript-local's `SendExternalRequest`, a failed
resolution for a non-ACK request produces exactly one direct
DoesNotExistAnywhere response whose reason text carries the unresolved
request-URI host, and no send occurs, while an unresolvable ACK emits nothing
at all.  In the ExampleProxyScripts variant, the ACK guard compares the
method enum to the string "ACK" without ToString(), which is never equal, so
that variant produces the DoesNotExistAnywhere response for every
unresolvable request, ACK included.  In the AppServer variant, by contrast, a
failed resolution of an INVITE from the application server is logged and the
request dropped without any response. -/
theorem c4_resolution_failure_handling :
    (∀ (ctx : ProxyLocal.Ctx) (recvOn : Option SIPEndPoint) (req : SIPRequest)
        (pb pip : Option String) (st : Bool),
      (ctx.resolveReq req).pending = false →
      ((ctx.resolveReq req).lookupError ≠ none ∨ (ctx.resolveReq req).endPointResults = none ∨
        (ctx.resolveReq req).endPointResults = some []) →
      (req.method ≠ "ACK" →
        ProxyLocal.SendExternalRequest ctx recvOn req pb pip st =
          [.respond req .DoesNotExistAnywhere ("Host " ++ req.uri.host ++ " unresolvable")]) ∧
      (req.method = "ACK" → ProxyLocal.SendExternalRequest ctx recvOn req pb pip st = [])) ∧
    (∀ (resolveReq : SIPRequest → Option SIPEndPoint) (recvOn : Option SIPEndPoint)
        (req : SIPRequest) (pb pip : Option String) (st : Bool),
      resolveReq req = none →
      ProxyExample.SendExternalRequest resolveReq recvOn req pb pip st =
        [.respond req .DoesNotExistAnywhere ("Host " ++ req.uri.host ++ " unresolvable")]) ∧
    (∀ (ctx : AppServer.Ctx) (req : SIPRequest),
      ctx.remoteEndPoint.asString = AppServer.m_appServerSocket →
      req.method = "INVITE" →
      (∀ q, ctx.resolveReq q = none) →
      AppServer.processRequest ctx req =
        .ok [.log ("Failed to resolve destination for INVITE to " ++ req.uri.asString ++
              ", request dropped.")]) := by
  refine ⟨?_, ?_, ?_⟩
  · intro ctx recvOn req pb pip st hp herr
    constructor
    · intro hack
      unfold ProxyLocal.SendExternalRequest
      simp [hp, herr, hack]
    · intro hack
      unfold ProxyLocal.SendExternalRequest
      simp [hp, herr, hack]
  · intro resolveReq recvOn req pb pip st hres
    unfold ProxyExample.SendExternalRequest
    simp [hres, ProxyExample.methodNeverEqualsStringAck]
  · intro ctx req hremote hmethod hres
    unfold AppServer.processRequest
    dsimp only
    rw [show AppServer.tagArrivalSocket ctx
          { req with header.maxForwards := req.header.maxForwards - 1 } =
        .ok { req with header.maxForwards := req.header.maxForwards - 1 } from by
      unfold AppServer.tagArrivalSocket
      simp [hremote]]
    unfold AppServer.dispatchRequest
    simp [hmethod, hremote, hres]

def c4wctx : ProxyLocal.Ctx :=
  { remoteEndPoint := ⟨"udp", "10.1.1.5", 5065⟩
    localEndPoint := ⟨"udp", "10.1.1.5", 5060⟩
    proxyBranch := "z9hG4bK-p4w"
    publicip := some "67.1.1.1"
    outSocket := ⟨"udp", "10.1.1.5", 5060⟩
    topVia := ⟨⟨"udp", "10.1.1.5", 5060⟩, "z9hG4bK-p4w", []⟩
    resolveReq := fun _ => ⟨false, none, none⟩
    resolveResp := fun _ => none
    dispatcherLookupReq := fun _ => none
    dispatcherLookupResp := fun _ => none }

def c4wreq : SIPRequest :=
  { method := "OPTIONS"
    uri := ⟨"sip", "unknown.invalid", 5060⟩
    header :=
      { maxForwards := 69
        vias := [⟨⟨"udp", "10.1.1.5", 5065⟩, "z9hG4bK-as4w", []⟩]
        routes := []
        recordRoutes := []
        contact := []
        toTag := some "t4"
        userAgent := "appserver"
        event := none
        cseqMethod := "OPTIONS" }
    receivedRoute := ""
    localSIPEndPoint := none }

def c4wack : SIPRequest :=
  { method := "ACK"
    uri := ⟨"sip", "ack.invalid", 5060⟩
    header :=
      { maxForwards := 69
        vias := [⟨⟨"udp", "10.1.1.5", 5065⟩, "z9hG4bK-as4a", []⟩]
        routes := []
        recordRoutes := []
        contact := []
        toTag := some "t4a"
        userAgent := "appserver"
        event := none
        cseqMethod := "INVITE" }
    receivedRoute := ""
    localSIPEndPoint := none }

/-- Witness for `c4_resolution_failure_handling`: an unresolvable OPTIONS gets
the DoesNotExistAnywhere response naming its host while an unresolvable ACK
emits nothing in proxyscript-local; the ExampleProxyScripts variant responds
even for the ACK; and the AppServer INVITE case yields only the log. -/
theorem c4_resolution_failure_handling_witness :
    ProxyLocal.SendExternalRequest c4wctx (some ⟨"udp", "10.1.1.5", 5060⟩) c4wreq
        (some "z9hG4bK-p4w") (some "67.1.1.1") false =
      [.respond c4wreq .DoesNotExistAnywhere "Host unknown.invalid unresolvable"] ∧
    ProxyLocal.SendExternalRequest c4wctx none c4wack none (some "67.1.1.1") true = [] ∧
    ProxyExample.SendExternalRequest (fun _ => none) none c4wack none none true =
      [.respond c4wack .DoesNotExistAnywhere "Host ack.invalid unresolvable"] ∧
    AppServer.processRequest c4ctx c4req =
      .ok [.log "Failed to resolve destination for INVITE to sip:nowhere.invalid:5060, request dropped."] :=
  ⟨(c4_resolution_failure_handling.1 c4wctx (some ⟨"udp", "10.1.1.5", 5060⟩) c4wreq
      (some "z9hG4bK-p4w") (some "67.1.1.1") false rfl (Or.inr (Or.inl rfl))).1 (by decide),
   (c4_resolution_failure_handling.1 c4wctx none c4wack none (some "67.1.1.1") true rfl
      (Or.inr (Or.inl rfl))).2 rfl,
   c4_resolution_failure_handling.2.1 (fun _ => none) none c4wack none none true rfl,
   c4_resolution_failure_handling.2.2 c4ctx c4req rfl rfl (fun _ => rfl)⟩

def c6ctxA : AppServer.Ctx :=
  { remoteEndPoint := ⟨"udp", "127.0.0.1", 5002⟩
    localEndPoint := ⟨"udp", "10.1.1.2", 5060⟩
    proxyBranch := "z9hG4bK-p6"
    channelName := "chan6"
    resolveURI := fun _ => ⟨"udp", "99.1.2.3", 5060⟩
    resolveReq := fun _ => none }

def c6reqA : SIPRequest :=
  { method := "REGISTER"
    uri := ⟨"sip", "registrar.example.com", 5060⟩
    header :=
      { maxForwards := 70
        vias := [⟨⟨"udp", "127.0.0.1", 5002⟩, "z9hG4bK-agent6", []⟩]
        routes := []
        recordRoutes := []
        contact := []
        toTag := none
        userAgent := "reg-agent"
        event := none
        cseqMethod := "REGISTER" }
    receivedRoute := ""
    localSIPEndPoint := none }

def c6ctxL : ProxyLocal.Ctx :=
  { remoteEndPoint := ⟨"udp", "127.0.0.1", 5002⟩
    localEndPoint := ⟨"udp", "10.1.1.5", 5060⟩
    proxyBranch := "z9hG4bK-p6L"
    publicip := some "67.1.1.1"
    outSocket := ⟨"udp", "10.1.1.5", 5060⟩
    topVia := ⟨⟨"udp", "10.1.1.5", 5060⟩, "z9hG4bK-p6L", []⟩
    resolveReq := fun _ => ⟨false, none, none⟩
    resolveResp := fun _ => none
    dispatcherLookupReq := fun _ => none
    dispatcherLookupResp := fun _ => none }

/-- C6: on a REGISTER from the Registration-Agent socket with no Route header
the AppServer variant dereferences the null result of `PopRoute()` and raises,
with no log and no drop handling (the script's exception aborts it); the
proxyscript-local variant implements the claimed behaviour — it logs the
missing Route and drops the message, emitting no send action. -/
theorem c6_missing_route_behaviour :
    AppServer.processRequest c6ctxA c6reqA = .error "NullReferenceException: PopRoute" ∧
    ProxyLocal.processRequest c6ctxL c6reqA =
      .ok [.log "Registration agent request was missing Route header.\nREGISTER sip:registrar.example.com:5060"] :=
  ⟨rfl, rfl⟩

def c7ctx : ProxyLocal.Ctx :=
  { remoteEndPoint := ⟨"udp", "127.0.0.1", 5003⟩
    localEndPoint := ⟨"udp", "10.1.1.5", 5060⟩
    proxyBranch := "z9hG4bK-p7"
    publicip := some "67.1.1.1"
    outSocket := ⟨"udp", "10.1.1.5", 5060⟩
    topVia := ⟨⟨"udp", "10.1.1.5", 5060⟩, "z9hG4bK-p7", []⟩
    resolveReq := fun _ => ⟨false, none, some [⟨"udp", "203.0.113.50", 5060⟩]⟩
    resolveResp := fun _ => none
    dispatcherLookupReq := fun _ => none
    dispatcherLookupResp := fun _ => none }

def c7req : SIPRequest :=
  { method := "NOTIFY"
    uri := ⟨"sip", "watcher.example.org", 5060⟩
    header :=
      { maxForwards := 70
        vias := [⟨⟨"udp", "127.0.0.1", 5003⟩, "z9hG4bK-not7", []⟩]
        routes := []
        recordRoutes := []
        contact := []
        toTag := some "t7"
        userAgent := "notifier"
        event := some "refer;id=1"
        cseqMethod := "NOTIFY" }
    receivedRoute := ""
    localSIPEndPoint := none }

def c7out : SIPRequest :=
  { c7req with header.maxForwards := 69 }

def c7acts : List ProxyLocal.Action :=
  [.sendExternalReq (some ⟨"udp", "10.1.1.5", 5060⟩) ⟨"udp", "203.0.113.50", 5060⟩ c7out
    (some "z9hG4bK-p7") (some "67.1.1.1")]

/-- C7 counterexample: a NOTIFY whose Event header is "refer;id=1" arriving
from the Notifier socket is sent outward to the external destination, not to
the Application Server — the "refer" Event check only runs for origins other
than the Application Server and the Notifier, so the routing is not
origin-independent. -/
theorem c7_refer_notify_from_notifier_goes_external :
    c7req.header.event = some "refer;id=1" ∧
    strStartsWith "refer;id=1" "refer" = true ∧
    ProxyLocal.processRequest c7ctx c7req = .ok c7acts ∧
    c7acts.all (fun a => !(a.isSendInternalTo ProxyLocal.m_appServerSocket)) = true :=
  ⟨rfl, rfl, rfl, rfl⟩

/-- C7 (amended): a NOTIFY whose Event header begins with "refer" and whose
origin is neither the Application Server nor the Notifier is routed to the
Application Server (an internal send to the app-server socket), not to the
generic Notifier; NOTIFYs originating from the Application Server or the
Notifier are instead sent outward regardless of their Event header. -/
theorem c7_refer_notify_routing (ctx : ProxyLocal.Ctx) (req : SIPRequest) (ev : String)
    (hmethod : req.method = "NOTIFY")
    (hnotApp : ctx.remoteEndPoint.asString ≠ ProxyLocal.m_appServerSocket)
    (hnotNotifier : ctx.remoteEndPoint.asString ≠ ProxyLocal.m_notifierSocket)
    (hev : req.header.event = some ev)
    (hrefer : strStartsWith ev "refer" = true)
    (hua1 : req.header.userAgent ≠ "Cisco-CP7965G/8.5.3")
    (hua2 : req.header.userAgent ≠ "Cisco-CP7911G/8.5.3") :
    ProxyLocal.processRequest ctx req =
      .ok [.sendInternalReq ctx.remoteEndPoint ctx.localEndPoint ProxyLocal.GetAppServer
            { req with header.maxForwards := req.header.maxForwards - 1 }
            ctx.proxyBranch ProxyLocal.m_proxySocketInternal] := by
  unfold ProxyLocal.processRequest
  dsimp only
  rw [show ProxyLocal.ciscoStrip { req with header.maxForwards := req.header.maxForwards - 1 } =
      .ok { req with header.maxForwards := req.header.maxForwards - 1 } from by
    unfold ProxyLocal.ciscoStrip
    simp [hua1, hua2]]
  unfold ProxyLocal.dispatchRequest
  simp [hmethod, hnotApp, hnotNotifier, hev, hrefer]

def c7wctx : ProxyLocal.Ctx :=
  { remoteEndPoint := ⟨"udp", "203.0.113.9", 5060⟩
    localEndPoint := ⟨"udp", "10.1.1.5", 5060⟩
    proxyBranch := "z9hG4bK-p7w"
    publicip := some "67.1.1.1"
    outSocket := ⟨"udp", "10.1.1.5", 5060⟩
    topVia := ⟨⟨"udp", "10.1.1.5", 5060⟩, "z9hG4bK-p7w", []⟩
    resolveReq := fun _ => ⟨false, none, none⟩
    resolveResp := fun _ => none
    dispatcherLookupReq := fun _ => none
    dispatcherLookupResp := fun _ => none }

def c7wreq : SIPRequest :=
  { method := "NOTIFY"
    uri := ⟨"sip", "user.example.com", 5060⟩
    header :=
      { maxForwards := 70
        vias := [⟨⟨"udp", "203.0.113.9", 5060⟩, "z9hG4bK-ua7", []⟩]
        routes := []
        recordRoutes := []
        contact := []
        toTag := some "t7w"
        userAgent := "external-ua"
        event := some "refer;id=1"
        cseqMethod := "NOTIFY" }
    receivedRoute := ""
    localSIPEndPoint := none }

/-- Witness for `c7_refer_notify_routing`: the spec scenario — a NOTIFY with
Event refer;id=1 from an external UA is routed to the Application Server. -/
theorem c7_refer_notify_routing_witness :
    ProxyLocal.processRequest c7wctx c7wreq =
      .ok [.sendInternalReq c7wctx.remoteEndPoint c7wctx.localEndPoint ProxyLocal.GetAppServer
            { c7wreq with header.maxForwards := c7wreq.header.maxForwards - 1 }
            c7wctx.proxyBranch ProxyLocal.m_proxySocketInternal] :=
  c7_refer_notify_routing c7wctx c7wreq "refer;id=1" rfl (by decide) (by decide) rfl rfl
    (by decide) (by decide)

/-- C8: whenever resolution of an outbound request or response succeeds, the
public-IP override handed to the transport's Contact/Via substitution is None
exactly when the Network Classifier classes the destination as local/private,
and is the configured public IP value exactly when it classes it as public. -/
theorem c8_public_ip_substitution :
    (∀ (ctx : ProxyLocal.Ctx) (recvOn : Option SIPEndPoint) (req : SIPRequest)
        (pb pip : Option String) (st : Bool) (d : SIPEndPoint) (ds : List SIPEndPoint),
      (ctx.resolveReq req).pending = false →
      (ctx.resolveReq req).lookupError = none →
      (ctx.resolveReq req).endPointResults = some (d :: ds) →
      ∀ a ∈ ProxyLocal.SendExternalRequest ctx recvOn req pb pip st,
        a.overrideIP = if ProxyLocal.IsLocalNetDestination d then none else pip) ∧
    (∀ (ctx : ProxyLocal.Ctx) (resp : SIPResponse) (sendFrom : SIPEndPoint)
        (pip : Option String) (d : SIPEndPoint),
      ctx.resolveResp resp = some d →
      ∀ a ∈ ProxyLocal.SendExternalResponse ctx resp sendFrom pip,
        a.overrideIP = if ProxyLocal.IsLocalNetDestination d then none else pip) := by
  constructor
  · intro ctx recvOn req pb pip st d ds hp he hr a ha
    unfold ProxyLocal.SendExternalRequest at ha
    simp only [hp, he, hr] at ha
    simp at ha
    cases hl : ProxyLocal.IsLocalNetDestination d <;> cases hst : st <;>
      simp only [hl, hst] at ha <;> simp at ha <;> subst ha <;>
      simp [ProxyLocal.Action.overrideIP, hl]
  · intro ctx resp sendFrom pip d hres a ha
    unfold ProxyLocal.SendExternalResponse at ha
    rw [hres] at ha
    cases hl : ProxyLocal.IsLocalNetDestination d <;>
      simp only [hl] at ha <;> simp at ha <;> subst ha <;>
      simp [ProxyLocal.Action.overrideIP, hl]

def c8ctx : ProxyLocal.Ctx :=
  { remoteEndPoint := ⟨"udp", "10.1.1.5", 5065⟩
    localEndPoint := ⟨"udp", "10.1.1.5", 5060⟩
    proxyBranch := "z9hG4bK-p8"
    publicip := some "67.1.1.1"
    outSocket := ⟨"udp", "10.1.1.5", 5060⟩
    topVia := ⟨⟨"udp", "10.1.1.5", 5060⟩, "z9hG4bK-p8", []⟩
    resolveReq := fun _ => ⟨false, none, some [⟨"udp", "10.0.0.9", 5060⟩]⟩
    resolveResp := fun _ => some ⟨"udp", "88.1.1.1", 5060⟩
    dispatcherLookupReq := fun _ => none
    dispatcherLookupResp := fun _ => none }

def c8req : SIPRequest :=
  { method := "INVITE"
    uri := ⟨"sip", "callee.example.net", 5060⟩
    header :=
      { maxForwards := 69
        vias := [⟨⟨"udp", "10.1.1.5", 5065⟩, "z9hG4bK-as8", []⟩]
        routes := []
        recordRoutes := []
        contact := [⟨"10.1.1.5"⟩]
        toTag := none
        userAgent := "appserver"
        event := none
        cseqMethod := "INVITE" }
    receivedRoute := ""
    localSIPEndPoint := none }

def c8resp : SIPResponse :=
  { statusCode := 200
    header :=
      { maxForwards := 70
        vias := [⟨⟨"udp", "88.1.1.1", 5060⟩, "z9hG4bK-ua8", []⟩]
        routes := []
        recordRoutes := []
        contact := [⟨"10.1.1.5"⟩]
        toTag := some "t8"
        userAgent := "appserver"
        event := none
        cseqMethod := "INVITE" }
    localSIPEndPoint := none }

/-- Witness for `c8_public_ip_substitution`: a private (10.x) request
destination gets a None override, a public response destination gets the
configured public IP. -/
theorem c8_public_ip_substitution_witness :
    (ProxyLocal.Action.sendTransparentReq ⟨"udp", "10.0.0.9", 5060⟩ c8req none).overrideIP =
      (if ProxyLocal.IsLocalNetDestination ⟨"udp", "10.0.0.9", 5060⟩ then none
       else some "67.1.1.1") ∧
    (ProxyLocal.Action.sendExternalResp c8resp ⟨"udp", "10.1.1.5", 5060⟩
        (some "67.1.1.1")).overrideIP =
      (if ProxyLocal.IsLocalNetDestination ⟨"udp", "88.1.1.1", 5060⟩ then none
       else some "67.1.1.1") :=
  ⟨c8_public_ip_substitution.1 c8ctx none c8req none (some "67.1.1.1") true
      ⟨"udp", "10.0.0.9", 5060⟩ [] rfl rfl rfl
      (ProxyLocal.Action.sendTransparentReq ⟨"udp", "10.0.0.9", 5060⟩ c8req none) (by decide),
   c8_public_ip_substitution.2 c8ctx c8resp ⟨"udp", "10.1.1.5", 5060⟩ (some "67.1.1.1")
      ⟨"udp", "88.1.1.1", 5060⟩ rfl
      (ProxyLocal.Action.sendExternalResp c8resp ⟨"udp", "10.1.1.5", 5060⟩ (some "67.1.1.1"))
      (by decide)⟩

def c10resp : SIPResponse :=
  { statusCode := 200
    header :=
      { maxForwards := 70
        vias := [⟨⟨"udp", "203.0.113.7", 5060⟩, "z9hG4bK-ua10", []⟩]
        routes := []
        recordRoutes := []
        contact := []
        toTag := some "t10"
        userAgent := "external-ua"
        event := none
        cseqMethod := "INVITE" }
    localSIPEndPoint := none }

def c10ctxE : ProxyExample.Ctx :=
  { remoteEndPoint := ⟨"udp", "203.0.113.7", 5060⟩
    localEndPoint := ⟨"udp", "10.249.142.143", 5060⟩
    outSocket := ⟨"udp", "10.249.142.143", 5060⟩
    publicip := some "67.1.1.1"
    topVia := ⟨⟨"udp", "10.249.142.143", 5060⟩, "z9hG4bK-x", []⟩
    isFromAppServer := false
    resolveResp := fun _ => none
    dispatcherLookupResp := fun _ => none }

def c10ctxL : ProxyLocal.Ctx :=
  { remoteEndPoint := ⟨"udp", "203.0.113.7", 5060⟩
    localEndPoint := ⟨"udp", "10.1.1.5", 5060⟩
    proxyBranch := "z9hG4bK-p10"
    publicip := some "67.1.1.1"
    outSocket := ⟨"udp", "10.1.1.5", 5060⟩
    topVia := ⟨⟨"udp", "10.1.1.5", 5060⟩, "z9hG4bK-x", []⟩
    resolveReq := fun _ => ⟨false, none, none⟩
    resolveResp := fun _ => none
    dispatcherLookupReq := fun _ => none
    dispatcherLookupResp := fun _ => none }

/-- C10: for an INVITE-CSeq response from an external UA with an empty
dispatcher lookup, the ExampleProxyScripts variant aborts with a NameError —
its fallback tests the name dispatcherEndPoint, which the response path never
assigns, instead of the dstEndPoint it just set — while the proxyscript-local
variant implements the claimed behaviour: the response is sent transparently
to the default Application Server socket with the popped Via's branch. -/
theorem c10_dispatcher_fallback :
    ProxyExample.processResponse c10ctxE c10resp =
      .error "NameError: name dispatcherEndPoint is not defined" ∧
    ProxyLocal.processResponse c10ctxL c10resp =
      [.sendTransparentResp ⟨"udp", "203.0.113.7", 5060⟩ ⟨"udp", "10.1.1.5", 5060⟩ c10resp
        ProxyLocal.proxySocketInternalEndPoint ProxyLocal.GetAppServer "z9hG4bK-x"] :=
  ⟨rfl, rfl⟩

end SIPS
